import Mathlib

/-!
Shallow embedding of the `CustomerSupportManager` ticket lifecycle and
auto-response engine from `customer_support.py`.

Modelling conventions:
* Python strings are Lean `String`; `sub in s` (substring test) is `strContains s sub`.
* `message.lower()` is `String.toLower`.
* Timestamps (`datetime.now().isoformat()`) are modelled as a `Nat` clock value
  passed explicitly to each operation (seconds); `timedelta(hours=24)` is 86400.
  The two consecutive `now()` calls inside one operation are modelled with one
  clock reading.
* JSON dicts with a fixed key set become structures; the dynamically added keys
  `resolved_by`, `updated_by` and `escalated` (read via `.get` with default)
  become fields with defaults (`none` / `false`).
* The `daily_tickets` / `category_stats` dicts become association lists with
  python-dict update semantics (bump in place, append new keys).
* File persistence (`save_*`) and message delivery are I/O outside the state;
  admin notifications that matter to the claims (escalation) are returned as an
  explicit list of (admin_id, ticket_id) pairs.
* The localized-response lookup inside `analyze_message_for_auto_response`
  depends on modules outside this repository (`user_bot`, `language`) and falls
  back to the table's built-in response on any failure; we model the built-in
  response.
-/

namespace ShopBD

/-- Python `needle.isPrefixOf`-style check is provided by `List.isPrefixOf`;
`charSub needle hay` models Python's `needle in hay` on character lists:
`needle` occurs contiguously inside `hay`. -/
def charSub (needle : List Char) : List Char → Bool
  | [] => needle.isEmpty
  | c :: cs => needle.isPrefixOf (c :: cs) || charSub needle cs

/-- Python `sub in s` for strings. -/
def strContains (s sub : String) : Bool :=
  charSub sub.data s.data

/-- Python `message.lower()`: character-wise lower-casing. All keywords the
classifier matches against are ASCII, for which `Char.toLower` agrees with
Python's lower-casing. -/
def pyLower (s : String) : String :=
  ⟨s.data.map Char.toLower⟩

/-- `human_agent_keywords` from `analyze_message_for_auto_response`
(customer_support.py lines 241-245). -/
def humanAgentKeywords : List String :=
  ["human", "agent", "person", "staff", "representative",
   "manager", "supervisor", "live chat", "real person",
   "talk to someone", "speak to", "connect me", "transfer me"]

/-- `auto_responses['greeting']['keywords']`. -/
def greetingKeywords : List String :=
  ["hello", "hi", "hey", "good morning", "good afternoon", "good evening",
   "namaste", "salam", "assalamu alaikum", "kemon achen", "ki obostha"]

/-- `auto_responses['greeting']['response']`. -/
def greetingResponse : String :=
  "👋 **Hello! Welcome to our support!**\n\nHow can I help you today?\n\n**Quick Help:**\n• 📦 Order issues\n• 💳 Payment problems\n• 🛍️ Product questions\n• 🔧 Technical support\n\nType your question or use /support for more options!"

/-- `auto_responses['order_status']['keywords']`. -/
def orderStatusKeywords : List String :=
  ["order", "status", "tracking", "delivery", "shipped", "where is my order",
   "order kothay", "delivery kobe hobe", "tracking number"]

/-- `auto_responses['order_status']['response']`. -/
def orderStatusResponse : String :=
  "📦 **Order Status Help**\n\nTo check your order status:\n1. Use /orders command\n2. Or click \x27📦 Orders\x27 in main menu\n3. Enter your order ID for tracking\n\nNeed more help? Create a support ticket!"

/-- `auto_responses['payment_help']['keywords']`. -/
def paymentHelpKeywords : List String :=
  ["payment", "pay", "crypto", "bitcoin", "xmr", "wallet", "how to pay",
   "payment kivabe korbo", "bitcoin address", "monero address", "payment method"]

/-- `auto_responses['payment_help']['response']`. -/
def paymentHelpResponse : String :=
  "💳 **Payment Help**\n\nWe accept:\n• Bitcoin (BTC)\n• Monero (XMR)\n\nPayment process:\n1. Add items to cart\n2. Proceed to checkout\n3. Send exact amount to provided wallet\n4. Confirm payment\n\nNeed help? Create a support ticket!"

/-- `auto_responses['product_info']['keywords']`. -/
def productInfoKeywords : List String :=
  ["product", "price", "stock", "available", "quantity", "product list",
   "ki ki ache", "price koto", "stock ache ki", "product details"]

/-- `auto_responses['product_info']['response']`. -/
def productInfoResponse : String :=
  "🛍️ **Product Information**\n\nTo view products:\n1. Click \x27🛍️ Products\x27 in main menu\n2. Select your country\n3. Browse categories\n4. View product details\n\nNeed specific info? Create a support ticket!"

/-- `auto_responses['shipping_delivery']['keywords']`. -/
def shippingDeliveryKeywords : List String :=
  ["shipping", "delivery", "how long", "delivery time", "shipping cost",
   "delivery kobe hobe", "shipping koto taka", "delivery time koto"]

/-- `auto_responses['shipping_delivery']['response']`. -/
def shippingDeliveryResponse : String :=
  "🚚 **Shipping & Delivery**\n\n**Delivery Times:**\n• EU: 3-7 days\n• USA: 5-10 days\n• Worldwide: 7-14 days\n\n**Shipping Costs:**\n• Varies by country\n• Check delivery options at checkout\n\nNeed specific info? Create a support ticket!"

/-- `auto_responses['refund_return']['keywords']`. -/
def refundReturnKeywords : List String :=
  ["refund", "return", "money back", "refund chai", "return korbo", "money back chai"]

/-- `auto_responses['refund_return']['response']`. -/
def refundReturnResponse : String :=
  "💰 **Refund & Return Policy**\n\n**Refund Policy:**\n• Contact support within 7 days\n• Provide order details\n• Refunds processed within 3-5 business days\n\n**Return Process:**\n• Create support ticket\n• Explain reason for return\n• Follow instructions from support team\n\nNeed help? Create a support ticket!"

/-- `auto_responses['technical_issues']['keywords']`. -/
def technicalIssuesKeywords : List String :=
  ["error", "bug", "not working", "problem", "issue", "broken"]

/-- `auto_responses['technical_issues']['response']`. -/
def technicalIssuesResponse : String :=
  "🔧 **Technical Support**\n\nFor technical issues:\n1. Try restarting your session (🔄 Restart Session)\n2. Clear your cart and try again\n3. If problem persists, create a support ticket\n\nWe\x27ll help you resolve it quickly!"

/-- `auto_responses['general_help']['keywords']`. -/
def generalHelpKeywords : List String :=
  ["help", "how", "what", "where", "when"]

/-- `auto_responses['general_help']['response']`. -/
def generalHelpResponse : String :=
  "❓ **General Help**\n\nQuick help:\n• /start - Main menu\n• /orders - Check orders\n• /notifications - Manage notifications\n• /support - Get help\n\nFor specific questions, create a support ticket!"

/-- The `self.auto_responses` table (customer_support.py lines 24-57): an
ordered association of category name, keyword list and response text. Python
3.7+ dicts iterate in insertion order, so a list is faithful. -/
def autoResponses : List (String × List String × String) :=
  [("greeting", greetingKeywords, greetingResponse),
   ("order_status", orderStatusKeywords, orderStatusResponse),
   ("payment_help", paymentHelpKeywords, paymentHelpResponse),
   ("product_info", productInfoKeywords, productInfoResponse),
   ("shipping_delivery", shippingDeliveryKeywords, shippingDeliveryResponse),
   ("refund_return", refundReturnKeywords, refundReturnResponse),
   ("technical_issues", technicalIssuesKeywords, technicalIssuesResponse),
   ("general_help", generalHelpKeywords, generalHelpResponse)]

/-- The second loop of `analyze_message_for_auto_response`: scan the ordered
category table, first category with any keyword occurring in the (lowered)
message wins and its built-in response is returned. -/
def findAutoResponse (m : String) : List (String × List String × String) → Option String
  | [] => none
  | (_, kws, resp) :: rest =>
    if kws.any (fun kw => strContains m kw) then some resp
    else findAutoResponse m rest

/-- `analyze_message_for_auto_response` (customer_support.py lines 236-279):
lower-case the message, return `none` when any human-agent keyword occurs,
otherwise scan the auto-response table first-match-wins. -/
def analyze_message_for_auto_response (message : String) : Option String :=
  let message_lower := pyLower message
  if humanAgentKeywords.any (fun kw => strContains message_lower kw) then
    none
  else
    findAutoResponse message_lower autoResponses

/-- A response nested inside a ticket (`response_data`,
customer_support.py lines 194-200). -/
structure SupportResponse where
  id : Nat
  responder_id : Int
  response : String
  is_admin : Bool
  timestamp : Nat
deriving DecidableEq, Repr

/-- A support ticket (`ticket` dict, customer_support.py lines 138-151).
`resolved_by`, `updated_by` and `escalated` are keys added dynamically by
`resolve_ticket`, `update_ticket_status` and `escalate_ticket`; `escalated` is
read with `.get('escalated', False)`, so the defaults model a fresh ticket. -/
structure Ticket where
  id : Nat
  user_id : Int
  username : String
  category : String
  message : String
  status : String
  priority : String
  created_at : Nat
  updated_at : Nat
  responses : List SupportResponse
  assigned_to : Option Int
  resolution : Option String
  resolved_by : Option Int := none
  updated_by : Option Int := none
  escalated : Bool := false
deriving DecidableEq, Repr

/-- The `support_tickets` document:
`{tickets, next_ticket_id, active_tickets, resolved_tickets}`.
`active_tickets` is a Python int and can go negative, hence `Int`. -/
structure TicketStore where
  tickets : List Ticket
  next_ticket_id : Nat
  active_tickets : Int
  resolved_tickets : Nat
deriving DecidableEq, Repr

/-- The `support_stats` document (customer_support.py lines 119-126).
`avg_response_time` and `customer_satisfaction` are only ever loaded and
saved by the lifecycle operations, never mutated. Dict keys are modelled as
association lists in insertion order; `daily_tickets` is keyed by day. -/
structure SupportStats where
  total_tickets : Nat
  resolved_tickets : Nat
  avg_response_time : Nat
  customer_satisfaction : Nat
  daily_tickets : List (Nat × Nat)
  category_stats : List (String × Nat)
deriving DecidableEq, Repr

/-- The mutable state of `CustomerSupportManager` that the lifecycle
operations touch: the ticket document and the stats document. -/
structure Store where
  support_tickets : TicketStore
  support_stats : SupportStats
deriving DecidableEq, Repr

/-- `load_support_tickets` fallback state (customer_support.py lines 78-83). -/
def initialTicketStore : TicketStore :=
  { tickets := [], next_ticket_id := 1, active_tickets := 0, resolved_tickets := 0 }

/-- `load_support_stats` fallback state (customer_support.py lines 119-126). -/
def initialSupportStats : SupportStats :=
  { total_tickets := 0, resolved_tickets := 0, avg_response_time := 0,
    customer_satisfaction := 0, daily_tickets := [], category_stats := [] }

/-- The store as first loaded when no data files exist. -/
def initialStore : Store :=
  { support_tickets := initialTicketStore, support_stats := initialSupportStats }

/-- Python dict bump `if k not in d: d[k] = 0; d[k] += 1` on a `Nat`-keyed
association list: increment in place, append unseen keys. -/
def bumpNat (k : Nat) : List (Nat × Nat) → List (Nat × Nat)
  | [] => [(k, 1)]
  | (k', v) :: rest => if k' = k then (k', v + 1) :: rest else (k', v) :: bumpNat k rest

/-- Python dict bump on a `String`-keyed association list. -/
def bumpStr (k : String) : List (String × Nat) → List (String × Nat)
  | [] => [(k, 1)]
  | (k', v) :: rest => if k' = k then (k', v + 1) :: rest else (k', v) :: bumpStr k rest

/-- `get_ticket_by_id` (customer_support.py lines 181-186): linear scan,
first ticket with the given id, else `None`. -/
def get_ticket_by_id (s : Store) (ticket_id : Nat) : Option Ticket :=
  s.support_tickets.tickets.find? (fun t => t.id == ticket_id)

/-- Mutation through the reference returned by `get_ticket_by_id`: apply `f`
to the first ticket whose id matches, leave everything else in place. -/
def updateFirst (ticket_id : Nat) (f : Ticket → Ticket) : List Ticket → List Ticket
  | [] => []
  | t :: rest => if t.id == ticket_id then f t :: rest else t :: updateFirst ticket_id f rest

/-- `create_support_ticket` (customer_support.py lines 134-175): allocate
`next_ticket_id`, append an open medium-priority ticket, bump the counters and
the day/category stat buckets, return the ticket id. `now` is the clock
reading, `day` is `now.date()`. -/
def create_support_ticket (now day : Nat) (user_id : Int)
    (username category message : String) (s : Store) : Store × Nat :=
  let ticket_id := s.support_tickets.next_ticket_id
  let ticket : Ticket :=
    { id := ticket_id, user_id := user_id, username := username,
      category := category, message := message, status := "open",
      priority := "medium", created_at := now, updated_at := now,
      responses := [], assigned_to := none, resolution := none }
  let ts : TicketStore :=
    { tickets := s.support_tickets.tickets ++ [ticket],
      next_ticket_id := s.support_tickets.next_ticket_id + 1,
      active_tickets := s.support_tickets.active_tickets + 1,
      resolved_tickets := s.support_tickets.resolved_tickets }
  let st : SupportStats :=
    { s.support_stats with
      total_tickets := s.support_stats.total_tickets + 1,
      daily_tickets := bumpNat day s.support_stats.daily_tickets,
      category_stats := bumpStr category s.support_stats.category_stats }
  ({ support_tickets := ts, support_stats := st }, ticket_id)

/-- `add_ticket_response` (customer_support.py lines 188-211): unknown id
gives `False`; otherwise append a response with sequential per-ticket id,
refresh `updated_at`, give `True`. -/
def add_ticket_response (now : Nat) (ticket_id : Nat) (responder_id : Int)
    (response : String) (is_admin : Bool) (s : Store) : Store × Bool :=
  match get_ticket_by_id s ticket_id with
  | none => (s, false)
  | some ticket =>
    let response_data : SupportResponse :=
      { id := ticket.responses.length + 1, responder_id := responder_id,
        response := response, is_admin := is_admin, timestamp := now }
    let tickets' := updateFirst ticket_id
      (fun t => { t with responses := t.responses ++ [response_data], updated_at := now })
      s.support_tickets.tickets
    ({ s with support_tickets := { s.support_tickets with tickets := tickets' } }, true)

/-- `resolve_ticket` (customer_support.py lines 213-234): unknown id gives
`False`; otherwise set status to resolved, record the resolution and resolver,
decrement `active_tickets` (unconditionally, no floor), increment both
resolved counters, give `True`. -/
def resolve_ticket (now : Nat) (ticket_id : Nat) (resolution : String)
    (admin_id : Int) (s : Store) : Store × Bool :=
  match get_ticket_by_id s ticket_id with
  | none => (s, false)
  | some _ =>
    let tickets' := updateFirst ticket_id
      (fun t => { t with
          status := "resolved", resolution := some resolution,
          updated_at := now, resolved_by := some admin_id })
      s.support_tickets.tickets
    let ts : TicketStore :=
      { tickets := tickets',
        next_ticket_id := s.support_tickets.next_ticket_id,
        active_tickets := s.support_tickets.active_tickets - 1,
        resolved_tickets := s.support_tickets.resolved_tickets + 1 }
    let st : SupportStats :=
      { s.support_stats with resolved_tickets := s.support_stats.resolved_tickets + 1 }
    ({ support_tickets := ts, support_stats := st }, true)

/-- `update_ticket_status` (customer_support.py lines 474-498): unknown id
gives `False`; otherwise set the new status, stamp the updater, and adjust
`active_tickets` on open/non-open transitions, clamped at zero. -/
def update_ticket_status (now : Nat) (ticket_id : Nat) (new_status : String)
    (admin_id : Int) (s : Store) : Store × Bool :=
  match get_ticket_by_id s ticket_id with
  | none => (s, false)
  | some ticket =>
    let old_status := ticket.status
    let tickets' := updateFirst ticket_id
      (fun t => { t with
          status := new_status, updated_at := now,
          updated_by := some admin_id })
      s.support_tickets.tickets
    let active : Int :=
      if old_status == "open" && new_status != "open" then
        max 0 (s.support_tickets.active_tickets - 1)
      else if old_status != "open" && new_status == "open" then
        s.support_tickets.active_tickets + 1
      else
        s.support_tickets.active_tickets
    ({ s with support_tickets :=
        { s.support_tickets with tickets := tickets', active_tickets := active } }, true)

/-- The per-ticket mutation performed by `escalate_ticket`
(customer_support.py lines 556-558): priority high, escalated flag set,
`updated_at` refreshed. -/
def escTicket (now : Nat) (t : Ticket) : Ticket :=
  { t with priority := "high", escalated := true, updated_at := now }

/-- `escalate_ticket` (customer_support.py lines 552-584): if the ticket
exists, set priority high, mark it escalated, refresh `updated_at`, and send
one escalation alert per configured admin. The alerts are returned as
(admin_id, ticket_id) pairs; an unknown id is a silent no-op. -/
def escalate_ticket (now : Nat) (admins : List Int) (ticket_id : Nat)
    (s : Store) : Store × List (Int × Nat) :=
  match get_ticket_by_id s ticket_id with
  | none => (s, [])
  | some _ =>
    let tickets' := updateFirst ticket_id (escTicket now) s.support_tickets.tickets
    ({ s with support_tickets := { s.support_tickets with tickets := tickets' } },
     admins.map (fun a => (a, ticket_id)))

/-- The body of one monitor scan (customer_support.py lines 533-540): walk the
snapshot of open-ticket ids; for each, re-read the live ticket, and when it is
older than 24 hours and not yet escalated, escalate it. Notifications
accumulate in order. -/
def monitorGo (now : Nat) (admins : List Int) :
    List Nat → Store → List (Int × Nat) → Store × List (Int × Nat)
  | [], s, notifs => (s, notifs)
  | tid :: rest, s, notifs =>
    match get_ticket_by_id s tid with
    | none => monitorGo now admins rest s notifs
    | some t =>
      if t.created_at + 86400 < now then
        if t.escalated = false then
          let p := escalate_ticket now admins tid s
          monitorGo now admins rest p.1 (notifs ++ p.2)
        else
          monitorGo now admins rest s notifs
      else
        monitorGo now admins rest s notifs

/-- One pass of the background monitor loop in `start_support_monitoring`
(customer_support.py lines 527-550): snapshot the open tickets, then process
each. `now` is the clock reading for the pass. -/
def monitorPass (now : Nat) (admins : List Int) (s : Store) : Store × List (Int × Nat) :=
  monitorGo now admins
    ((s.support_tickets.tickets.filter (fun t => t.status == "open")).map (fun t => t.id))
    s []

/-- A sequence of `create_support_ticket` calls: each input is
(now, day, user_id, username, category, message); the returned ids are
collected in call order. -/
def runCreates : List (Nat × Nat × Int × String × String × String) → Store → Store × List Nat
  | [], s => (s, [])
  | (now, day, uid, un, cat, msg) :: rest, s =>
    let p := create_support_ticket now day uid un cat msg s
    let q := runCreates rest p.1
    (q.1, p.2 :: q.2)

/-- The C1 invariant: the stored `active_tickets` counter equals the number of
tickets whose status is `open` (cf. the open-ticket count computed at
customer_support.py line 503). -/
def activeInv (s : Store) : Prop :=
  s.support_tickets.active_tickets =
    ((s.support_tickets.tickets.filter (fun t => t.status == "open")).length : Int)

/-- The C3 invariant: every resolved ticket carries a resolution. -/
def resolvedInv (s : Store) : Prop :=
  ∀ t ∈ s.support_tickets.tickets, t.status = "resolved" → t.resolution ≠ none

/-- Reachability by the four lifecycle operations from the initial store, with
`resolve_ticket` only ever invoked on tickets that are currently open (the
guard the C1 counterexample forces). -/
inductive ReachableResolveOpen : Store → Prop
  | init : ReachableResolveOpen initialStore
  | create (s : Store) (now day : Nat) (uid : Int) (un cat msg : String) :
      ReachableResolveOpen s →
      ReachableResolveOpen (create_support_ticket now day uid un cat msg s).1
  | respond (s : Store) (now tid : Nat) (rid : Int) (resp : String) (adm : Bool) :
      ReachableResolveOpen s →
      ReachableResolveOpen (add_ticket_response now tid rid resp adm s).1
  | resolve (s : Store) (now tid : Nat) (res : String) (aid : Int) :
      ReachableResolveOpen s →
      (get_ticket_by_id s tid).all (fun t => t.status == "open") = true →
      ReachableResolveOpen (resolve_ticket now tid res aid s).1
  | update (s : Store) (now tid : Nat) (ns : String) (aid : Int) :
      ReachableResolveOpen s →
      ReachableResolveOpen (update_ticket_status now tid ns aid s).1

/-- Reachability by the four lifecycle operations from the initial store, with
`update_ticket_status` never invoked with `new_status = 'resolved'` (the guard
the C3 counterexample forces). `resolve_ticket` is unrestricted. -/
inductive ReachableNoStatusResolved : Store → Prop
  | init : ReachableNoStatusResolved initialStore
  | create (s : Store) (now day : Nat) (uid : Int) (un cat msg : String) :
      ReachableNoStatusResolved s →
      ReachableNoStatusResolved (create_support_ticket now day uid un cat msg s).1
  | respond (s : Store) (now tid : Nat) (rid : Int) (resp : String) (adm : Bool) :
      ReachableNoStatusResolved s →
      ReachableNoStatusResolved (add_ticket_response now tid rid resp adm s).1
  | resolve (s : Store) (now tid : Nat) (res : String) (aid : Int) :
      ReachableNoStatusResolved s →
      ReachableNoStatusResolved (resolve_ticket now tid res aid s).1
  | update (s : Store) (now tid : Nat) (ns : String) (aid : Int) :
      ReachableNoStatusResolved s →
      ns ≠ "resolved" →
      ReachableNoStatusResolved (update_ticket_status now tid ns aid s).1

/-- Concrete scenario store: one ticket created at time 0 on the fresh store
(the spec §8 scenario `create(42, "alice", "Payment Problems", ...)`). -/
def exStoreA : Store :=
  (create_support_ticket 0 0 42 "alice" "Payment Problems" "my btc payment failed" initialStore).1

/-- The single ticket living in `exStoreA`. -/
def exTicketA : Ticket :=
  { id := 1, user_id := 42, username := "alice", category := "Payment Problems",
    message := "my btc payment failed", status := "open", priority := "medium",
    created_at := 0, updated_at := 0, responses := [], assigned_to := none,
    resolution := none }

/-- `exStoreA` after `resolve_ticket(1, "refunded", 7)`. -/
def exStoreB : Store :=
  (resolve_ticket 1 1 "refunded" 7 exStoreA).1

/-- `exStoreB` after a second `resolve_ticket(1, "again", 7)` on the same id:
the state driving the active-ticket counter negative. -/
def exStoreC : Store :=
  (resolve_ticket 2 1 "again" 7 exStoreB).1

/-- `exStoreA` after `update_ticket_status(1, 'resolved', 7)`: a resolved
ticket whose resolution is still null. -/
def exStoreU : Store :=
  (update_ticket_status 1 1 "resolved" 7 exStoreA).1

/-- The single ticket living in `exStoreU`. -/
def exTicketU : Ticket :=
  { exTicketA with status := "resolved", updated_at := 1, updated_by := some 7 }

/-- `exStoreA` with a second ticket created at time 5. -/
def exStoreTwo : Store :=
  (create_support_ticket 5 0 43 "bob" "Order Issues" "where is it" exStoreA).1

/-! ## Substring lemmas -/

theorem charSub_iff (n : List Char) (l : List Char) : charSub n l = true ↔ n <:+: l := by
  induction l with
  | nil => simp [charSub, List.isEmpty_iff]
  | cons c cs ih => simp [charSub, List.infix_cons_iff, ih]

theorem strContains_iff (s sub : String) : strContains s sub = true ↔ sub.data <:+: s.data :=
  charSub_iff sub.data s.data

theorem strContains_trans {a b c : String} (h1 : strContains b a = true)
    (h2 : strContains c b = true) : strContains c a = true := by
  rw [strContains_iff] at h1 h2 ⊢
  exact h1.trans h2

/-! ## C4 and C5: the auto-response classifier -/

/-- C4: any input whose lower-cased text contains the phrase "talk to someone"
is never auto-answered: `analyze_message_for_auto_response` returns `none`,
whatever other keywords the text contains, because the human-agent phrases are
tested first and unconditionally suppress auto-response. -/
theorem talk_to_someone_yields_no_match (message : String)
    (h : strContains (pyLower message) "talk to someone" = true) :
    analyze_message_for_auto_response message = none := by
  have hany : humanAgentKeywords.any (fun kw => strContains (pyLower message) kw) = true :=
    List.any_eq_true.mpr ⟨"talk to someone", by simp [humanAgentKeywords], h⟩
  simp only [analyze_message_for_auto_response, hany, if_true]

/-- Witness for C4 at the concrete input "I want to talk to someone now". -/
theorem talk_to_someone_yields_no_match_witness :
    strContains (pyLower "I want to talk to someone now") "talk to someone" = true ∧
    analyze_message_for_auto_response "I want to talk to someone now" = none :=
  ⟨by decide, talk_to_someone_yields_no_match "I want to talk to someone now" (by decide)⟩

set_option maxRecDepth 4000 in
/-- C5 counterexample: "hello bitcoin address" contains the phrase
"bitcoin address", yet the classifier returns the greeting response, not the
payment-help response, because the greeting category is scanned first and
"hello" matches. -/
theorem bitcoin_address_counterexample :
    strContains (pyLower "hello bitcoin address") "bitcoin address" = true ∧
    analyze_message_for_auto_response "hello bitcoin address" = some greetingResponse ∧
    greetingResponse ≠ paymentHelpResponse := by
  refine ⟨by decide, by decide, by decide⟩

/-- C5 amended: an input whose lower-cased text contains "bitcoin address"
maps to the payment-help category, provided no human-agent phrase and no
keyword of the earlier-scanned `greeting` and `order_status` categories occurs
in the text (the table is scanned in order, first match wins). -/
theorem bitcoin_address_payment_help (message : String)
    (hb : strContains (pyLower message) "bitcoin address" = true)
    (hh : ∀ kw ∈ humanAgentKeywords, strContains (pyLower message) kw = false)
    (hg : ∀ kw ∈ greetingKeywords, strContains (pyLower message) kw = false)
    (ho : ∀ kw ∈ orderStatusKeywords, strContains (pyLower message) kw = false) :
    analyze_message_for_auto_response message = some paymentHelpResponse := by
  have hbit : strContains (pyLower message) "bitcoin" = true :=
    strContains_trans (by decide) hb
  have hany : humanAgentKeywords.any (fun kw => strContains (pyLower message) kw) = false := by
    rw [List.any_eq_false]
    intro kw hkw
    simp [hh kw hkw]
  have hgany : greetingKeywords.any (fun kw => strContains (pyLower message) kw) = false := by
    rw [List.any_eq_false]
    intro kw hkw
    simp [hg kw hkw]
  have hoany : orderStatusKeywords.any (fun kw => strContains (pyLower message) kw) = false := by
    rw [List.any_eq_false]
    intro kw hkw
    simp [ho kw hkw]
  have hpany : paymentHelpKeywords.any (fun kw => strContains (pyLower message) kw) = true :=
    List.any_eq_true.mpr ⟨"bitcoin", by simp [paymentHelpKeywords], hbit⟩
  simp only [analyze_message_for_auto_response, hany, Bool.false_eq_true, if_false,
    autoResponses, findAutoResponse, hgany, hoany, hpany, if_true]

/-- Witness for the amended C5 at the concrete input "bitcoin address". -/
theorem bitcoin_address_payment_help_witness :
    strContains (pyLower "bitcoin address") "bitcoin address" = true ∧
    analyze_message_for_auto_response "bitcoin address" = some paymentHelpResponse :=
  ⟨by decide,
   bitcoin_address_payment_help "bitcoin address" (by decide) (by decide) (by decide) (by decide)⟩

/-! ## Lookup and update lemmas -/

theorem find?_updateFirst_self {tid : Nat} {f : Ticket → Ticket} {l : List Ticket} {t : Ticket}
    (hid : ∀ u, (f u).id = u.id)
    (h : l.find? (fun u => u.id == tid) = some t) :
    (updateFirst tid f l).find? (fun u => u.id == tid) = some (f t) := by
  induction l with
  | nil => simp [List.find?] at h
  | cons a l ih =>
    by_cases ha : a.id = tid
    · have hfa : ((f a).id == tid) = true := by simp [hid a, ha]
      rw [List.find?_cons] at h
      simp only [ha, beq_self_eq_true] at h
      cases h
      simp [updateFirst, ha, List.find?_cons, hfa]
    · have hna : (a.id == tid) = false := by simp [ha]
      rw [List.find?_cons] at h
      simp only [hna] at h
      simp [updateFirst, hna, List.find?_cons, ih h]

theorem find?_updateFirst_ne {tid' tid : Nat} {f : Ticket → Ticket} {l : List Ticket}
    (hid : ∀ u, (f u).id = u.id) (hne : tid' ≠ tid) :
    (updateFirst tid' f l).find? (fun u => u.id == tid) = l.find? (fun u => u.id == tid) := by
  induction l with
  | nil => simp [updateFirst]
  | cons a l ih =>
    by_cases ha : a.id = tid'
    · have h1 : ((f a).id == tid) = false := by simp [hid a, ha, hne]
      have h2 : (tid' == tid) = false := by simp [hne]
      simp [updateFirst, ha, List.find?_cons, h1, h2]
    · have hna : (a.id == tid') = false := by simp [ha]
      simp only [updateFirst, hna, Bool.false_eq_true, if_false, List.find?_cons]
      cases hat : (a.id == tid) <;> simp [hat, ih]

theorem length_updateFirst (tid : Nat) (f : Ticket → Ticket) (l : List Ticket) :
    (updateFirst tid f l).length = l.length := by
  induction l with
  | nil => rfl
  | cons a l ih =>
    by_cases ha : a.id = tid <;> simp [updateFirst, ha, ih]

/-! ## C8 and C9: unknown ids -/

theorem get_none_of_absent {s : Store} {tid : Nat}
    (h : ∀ t ∈ s.support_tickets.tickets, t.id ≠ tid) :
    get_ticket_by_id s tid = none := by
  unfold get_ticket_by_id
  rw [List.find?_eq_none]
  intro t ht
  simpa using h t ht

/-- C8: for a ticket id not present in the store, every lookup-based operation
reports not-found through its sentinel: `get_ticket_by_id` gives `none`, and
`add_ticket_response`, `resolve_ticket` and `update_ticket_status` each give
`False`. -/
theorem unknown_id_reports_not_found (s : Store) (now tid : Nat) (rid aid1 aid2 : Int)
    (resp res ns : String) (adm : Bool)
    (h : ∀ t ∈ s.support_tickets.tickets, t.id ≠ tid) :
    get_ticket_by_id s tid = none ∧
    (add_ticket_response now tid rid resp adm s).2 = false ∧
    (resolve_ticket now tid res aid1 s).2 = false ∧
    (update_ticket_status now tid ns aid2 s).2 = false := by
  have hg : get_ticket_by_id s tid = none := get_none_of_absent h
  refine ⟨hg, ?_, ?_, ?_⟩ <;>
    simp [add_ticket_response, resolve_ticket, update_ticket_status, hg]

/-- Witness for C8: id 2 is absent from the one-ticket store `exStoreA`. -/
theorem unknown_id_reports_not_found_witness :
    get_ticket_by_id exStoreA 2 = none ∧
    (add_ticket_response 3 2 7 "hi there" true exStoreA).2 = false ∧
    (resolve_ticket 3 2 "done" 7 exStoreA).2 = false ∧
    (update_ticket_status 3 2 "closed" 7 exStoreA).2 = false :=
  unknown_id_reports_not_found exStoreA 3 2 7 7 7 "hi there" "done" "closed" true (by decide)

/-- C9: for a ticket id not present in the store, `add_ticket_response`,
`resolve_ticket` and `update_ticket_status` return `False` without any
mutation: the whole store (ticket collection, `next_ticket_id`,
`active_tickets`, `resolved_tickets`, and the stats document) is unchanged. -/
theorem unknown_id_leaves_state_unchanged (s : Store) (now tid : Nat) (rid aid1 aid2 : Int)
    (resp res ns : String) (adm : Bool)
    (h : ∀ t ∈ s.support_tickets.tickets, t.id ≠ tid) :
    add_ticket_response now tid rid resp adm s = (s, false) ∧
    resolve_ticket now tid res aid1 s = (s, false) ∧
    update_ticket_status now tid ns aid2 s = (s, false) := by
  have hg : get_ticket_by_id s tid = none := get_none_of_absent h
  refine ⟨?_, ?_, ?_⟩ <;>
    simp [add_ticket_response, resolve_ticket, update_ticket_status, hg]

/-- Witness for C9 at the concrete store `exStoreA` and absent id 2. -/
theorem unknown_id_leaves_state_unchanged_witness :
    add_ticket_response 3 2 7 "hi there" true exStoreA = (exStoreA, false) ∧
    resolve_ticket 3 2 "done" 7 exStoreA = (exStoreA, false) ∧
    update_ticket_status 3 2 "closed" 7 exStoreA = (exStoreA, false) :=
  unknown_id_leaves_state_unchanged exStoreA 3 2 7 7 7 "hi there" "done" "closed" true (by decide)

/-! ## C2: double resolve -/

theorem get_after_resolve {s : Store} {tid : Nat} {t : Ticket} (now : Nat)
    (r : String) (aid : Int) (h : get_ticket_by_id s tid = some t) :
    get_ticket_by_id (resolve_ticket now tid r aid s).1 tid =
      some { t with
             status := "resolved", resolution := some r,
             updated_at := now, resolved_by := some aid } := by
  simp only [resolve_ticket, h]
  exact find?_updateFirst_self (fun u => rfl) h

theorem resolve_found_effect {s : Store} {tid : Nat} {t : Ticket} (now : Nat)
    (r : String) (aid : Int) (h : get_ticket_by_id s tid = some t) :
    (resolve_ticket now tid r aid s).2 = true ∧
    (resolve_ticket now tid r aid s).1.support_tickets.active_tickets =
      s.support_tickets.active_tickets - 1 := by
  simp only [resolve_ticket, h]
  exact ⟨by trivial, by trivial⟩

/-- C2 counterexample: on the one-ticket store, the second `resolve_ticket`
call on id 1 is neither rejected nor a no-op — it returns `True`, mutates the
store again, and drives `active_tickets` to -1: the decrement is not floored
at 0. -/
theorem resolve_twice_counterexample :
    (resolve_ticket 2 1 "again" 7 exStoreB).2 = true ∧
    (resolve_ticket 2 1 "again" 7 exStoreB).1 ≠ exStoreB ∧
    (resolve_ticket 2 1 "again" 7 exStoreB).1.support_tickets.active_tickets = -1 := by
  refine ⟨by decide, by decide, by decide⟩

/-- C2 amended: for any ticket id present in the store, a second
`resolve_ticket` call on the same id is accepted (returns `True`) and
decrements `active_tickets` a second time with no floor: after two resolves
the counter is the original value minus 2, so it can drop below zero. -/
theorem resolve_twice_double_decrements (s : Store) (t : Ticket)
    (tid now1 now2 : Nat) (r1 r2 : String) (a1 a2 : Int)
    (h : get_ticket_by_id s tid = some t) :
    (resolve_ticket now1 tid r1 a1 s).2 = true ∧
    (resolve_ticket now2 tid r2 a2 (resolve_ticket now1 tid r1 a1 s).1).2 = true ∧
    (resolve_ticket now2 tid r2 a2 (resolve_ticket now1 tid r1 a1 s).1).1.support_tickets.active_tickets =
      s.support_tickets.active_tickets - 2 := by
  obtain ⟨hb1, ha1⟩ := resolve_found_effect now1 r1 a1 h
  have h2 := get_after_resolve now1 r1 a1 h
  obtain ⟨hb2, ha2⟩ := resolve_found_effect now2 r2 a2 h2
  refine ⟨hb1, hb2, ?_⟩
  rw [ha2, ha1]
  ring

/-- Witness for the amended C2 on the concrete one-ticket store. -/
theorem resolve_twice_double_decrements_witness :
    (resolve_ticket 1 1 "refunded" 7 exStoreA).2 = true ∧
    (resolve_ticket 2 1 "again" 7 (resolve_ticket 1 1 "refunded" 7 exStoreA).1).2 = true ∧
    (resolve_ticket 2 1 "again" 7 (resolve_ticket 1 1 "refunded" 7 exStoreA).1).1.support_tickets.active_tickets =
      exStoreA.support_tickets.active_tickets - 2 :=
  resolve_twice_double_decrements exStoreA exTicketA 1 1 2 "refunded" "again" 7 7 (by decide)

/-! ## C10: add_ticket_response frame -/

/-- C10: on a present ticket id, `add_ticket_response` succeeds and modifies
only the target ticket's `responses` (appending exactly one response whose id
is the new length of the list) and its `updated_at`; every other field of the
target, every ticket with a different id, the collection's size, the three
store counters and the stats document are unchanged. -/
theorem add_response_frame (s : Store) (t : Ticket) (tid tid' now : Nat) (rid : Int)
    (resp : String) (adm : Bool)
    (h : get_ticket_by_id s tid = some t) (hne : tid' ≠ tid) :
    (add_ticket_response now tid rid resp adm s).2 = true ∧
    get_ticket_by_id (add_ticket_response now tid rid resp adm s).1 tid =
      some { t with
             responses := t.responses ++
               [{ id := t.responses.length + 1, responder_id := rid,
                  response := resp, is_admin := adm, timestamp := now }],
             updated_at := now } ∧
    get_ticket_by_id (add_ticket_response now tid rid resp adm s).1 tid' =
      get_ticket_by_id s tid' ∧
    (add_ticket_response now tid rid resp adm s).1.support_tickets.tickets.length =
      s.support_tickets.tickets.length ∧
    (add_ticket_response now tid rid resp adm s).1.support_tickets.next_ticket_id =
      s.support_tickets.next_ticket_id ∧
    (add_ticket_response now tid rid resp adm s).1.support_tickets.active_tickets =
      s.support_tickets.active_tickets ∧
    (add_ticket_response now tid rid resp adm s).1.support_tickets.resolved_tickets =
      s.support_tickets.resolved_tickets ∧
    (add_ticket_response now tid rid resp adm s).1.support_stats = s.support_stats := by
  simp only [add_ticket_response, h]
  refine ⟨by trivial, ?_, ?_, length_updateFirst _ _ _, by trivial, by trivial, by trivial,
    by trivial⟩
  · exact find?_updateFirst_self (fun u => rfl) h
  · exact find?_updateFirst_ne (fun u => rfl) (fun hc => hne hc.symm)

/-- Witness for C10 on the two-ticket store, target id 1, other id 2. -/
theorem add_response_frame_witness :
    (add_ticket_response 9 1 7 "on it" true exStoreTwo).2 = true ∧
    get_ticket_by_id (add_ticket_response 9 1 7 "on it" true exStoreTwo).1 1 =
      some { exTicketA with
             responses := exTicketA.responses ++
               [{ id := exTicketA.responses.length + 1, responder_id := 7,
                  response := "on it", is_admin := true, timestamp := 9 }],
             updated_at := 9 } ∧
    get_ticket_by_id (add_ticket_response 9 1 7 "on it" true exStoreTwo).1 2 =
      get_ticket_by_id exStoreTwo 2 ∧
    (add_ticket_response 9 1 7 "on it" true exStoreTwo).1.support_tickets.tickets.length =
      exStoreTwo.support_tickets.tickets.length ∧
    (add_ticket_response 9 1 7 "on it" true exStoreTwo).1.support_tickets.next_ticket_id =
      exStoreTwo.support_tickets.next_ticket_id ∧
    (add_ticket_response 9 1 7 "on it" true exStoreTwo).1.support_tickets.active_tickets =
      exStoreTwo.support_tickets.active_tickets ∧
    (add_ticket_response 9 1 7 "on it" true exStoreTwo).1.support_tickets.resolved_tickets =
      exStoreTwo.support_tickets.resolved_tickets ∧
    (add_ticket_response 9 1 7 "on it" true exStoreTwo).1.support_stats =
      exStoreTwo.support_stats :=
  add_response_frame exStoreTwo exTicketA 1 2 9 7 "on it" true (by decide) (by decide)

/-! ## C6: sequential ticket ids -/

theorem runCreates_general (inputs : List (Nat × Nat × Int × String × String × String))
    (s : Store) :
    (runCreates inputs s).2 =
      List.range' s.support_tickets.next_ticket_id inputs.length ∧
    (runCreates inputs s).1.support_tickets.tickets.map (fun t => t.id) =
      s.support_tickets.tickets.map (fun t => t.id) ++
        List.range' s.support_tickets.next_ticket_id inputs.length := by
  induction inputs generalizing s with
  | nil => simp [runCreates]
  | cons x rest ih =>
    obtain ⟨now, day, uid, un, cat, msg⟩ := x
    obtain ⟨ih1, ih2⟩ := ih (create_support_ticket now day uid un cat msg s).1
    simp only [runCreates, List.length_cons, List.range'_succ]
    refine ⟨?_, ?_⟩
    · rw [ih1]
      simp [create_support_ticket]
    · rw [ih2]
      simp [create_support_ticket]

/-- C6: for every sequence of `create_support_ticket` calls starting from the
initial store, the returned ticket ids are exactly 1, 2, ..., n (strictly
increasing, starting at 1), and they coincide with the ids stored in the final
ticket collection, which are therefore unique across the store. -/
theorem create_ids_sequential (inputs : List (Nat × Nat × Int × String × String × String)) :
    (runCreates inputs initialStore).2 = List.range' 1 inputs.length ∧
    List.Pairwise (· < ·) (runCreates inputs initialStore).2 ∧
    (runCreates inputs initialStore).1.support_tickets.tickets.map (fun t => t.id) =
      (runCreates inputs initialStore).2 ∧
    ((runCreates inputs initialStore).1.support_tickets.tickets.map (fun t => t.id)).Nodup := by
  obtain ⟨h1, h2⟩ := runCreates_general inputs initialStore
  have hinit : initialStore.support_tickets.next_ticket_id = 1 := rfl
  have hnil : initialStore.support_tickets.tickets.map (fun t => t.id) = [] := rfl
  rw [hinit] at h1
  rw [hinit, hnil, List.nil_append] at h2
  refine ⟨h1, ?_, ?_, ?_⟩
  · rw [h1]
    exact List.pairwise_lt_range' 1 inputs.length
  · rw [h1, h2]
  · rw [h2]
    exact List.nodup_range' 1 inputs.length

/-! ## C1: the active_tickets counter invariant -/

theorem countP_updateFirst (p : Ticket → Bool) {tid : Nat} (f : Ticket → Ticket)
    {l : List Ticket} {t : Ticket}
    (h : l.find? (fun u => u.id == tid) = some t) :
    (updateFirst tid f l).countP p + (if p t then 1 else 0) =
      l.countP p + (if p (f t) then 1 else 0) := by
  induction l with
  | nil => simp [List.find?] at h
  | cons a l ih =>
    rw [List.find?_cons] at h
    cases ha : (a.id == tid) with
    | true =>
      rw [ha] at h
      cases h
      simp only [updateFirst, ha, if_true, List.countP_cons]
      omega
    | false =>
      rw [ha] at h
      simp only [updateFirst, ha, Bool.false_eq_true, if_false, List.countP_cons]
      have := ih h
      omega

theorem countP_pos_of_find? {p : Ticket → Bool} {q : Ticket → Bool} {l : List Ticket}
    {t : Ticket} (h : l.find? q = some t) (hp : p t = true) :
    1 ≤ l.countP p :=
  List.countP_pos_iff.mpr ⟨t, List.mem_of_find?_eq_some h, hp⟩

theorem activeInv_countP (s : Store) :
    activeInv s ↔
      s.support_tickets.active_tickets =
        (s.support_tickets.tickets.countP (fun t => t.status == "open") : Int) := by
  unfold activeInv
  rw [List.countP_eq_length_filter]

theorem activeInv_create {s : Store} (now day : Nat) (uid : Int) (un cat msg : String)
    (h : activeInv s) :
    activeInv (create_support_ticket now day uid un cat msg s).1 := by
  rw [activeInv_countP] at h ⊢
  simp only [create_support_ticket, List.countP_append, List.countP_cons, List.countP_nil,
    beq_self_eq_true, if_true]
  push_cast
  omega

theorem activeInv_respond {s : Store} (now tid : Nat) (rid : Int) (resp : String)
    (adm : Bool) (h : activeInv s) :
    activeInv (add_ticket_response now tid rid resp adm s).1 := by
  cases hg : get_ticket_by_id s tid with
  | none => simpa [add_ticket_response, hg] using h
  | some t =>
    rw [activeInv_countP] at h ⊢
    simp only [add_ticket_response, hg]
    have hc := countP_updateFirst (fun u => u.status == "open")
      (fun u => { u with
                  responses := u.responses ++
                    [{ id := t.responses.length + 1, responder_id := rid,
                       response := resp, is_admin := adm, timestamp := now }],
                  updated_at := now }) hg
    simp only at hc
    omega

theorem activeInv_resolve {s : Store} (now tid : Nat) (res : String) (aid : Int)
    (hguard : (get_ticket_by_id s tid).all (fun t => t.status == "open") = true)
    (h : activeInv s) :
    activeInv (resolve_ticket now tid res aid s).1 := by
  cases hg : get_ticket_by_id s tid with
  | none => simpa [resolve_ticket, hg] using h
  | some t =>
    rw [hg] at hguard
    have hopen : (t.status == "open") = true := by simpa [Option.all] using hguard
    rw [activeInv_countP] at h ⊢
    simp only [resolve_ticket, hg]
    have hc := countP_updateFirst (fun u => u.status == "open")
      (fun u => { u with
                  status := "resolved", resolution := some res,
                  updated_at := now, resolved_by := some aid }) hg
    have hres : (("resolved" : String) == "open") = false := by decide
    simp only [hopen, hres, eq_self_iff_true, if_true, Bool.false_eq_true, if_false] at hc
    have hpos : 1 ≤ s.support_tickets.tickets.countP (fun u => u.status == "open") :=
      countP_pos_of_find? hg hopen
    omega

theorem activeInv_update {s : Store} (now tid : Nat) (ns : String) (aid : Int)
    (h : activeInv s) :
    activeInv (update_ticket_status now tid ns aid s).1 := by
  cases hg : get_ticket_by_id s tid with
  | none => simpa [update_ticket_status, hg] using h
  | some t =>
    rw [activeInv_countP] at h ⊢
    simp only [update_ticket_status, hg]
    have hc := countP_updateFirst (fun u => u.status == "open")
      (fun u => { u with status := ns, updated_at := now, updated_by := some aid }) hg
    have hpos : (t.status == "open") = true →
        1 ≤ s.support_tickets.tickets.countP (fun u => u.status == "open") :=
      fun hop => countP_pos_of_find? hg hop
    cases hb1 : (t.status == "open") <;> cases hb2 : (ns == "open") <;>
      simp only [hb1, hb2, bne, Bool.not_true, Bool.not_false, Bool.true_and, Bool.false_and,
        Bool.and_true, Bool.and_false, eq_self_iff_true, if_true, Bool.false_eq_true,
        if_false] at hc ⊢
    · omega
    · omega
    · have h1 := hpos hb1
      omega
    · omega

/-- C1 counterexample: the invariant `active_tickets = count(status == open)`
does not survive every lifecycle sequence: create one ticket, then resolve it
twice — a reachable sequence of lifecycle operations — and the stored counter
is -1 while no ticket is open. -/
theorem active_invariant_counterexample :
    ¬ activeInv exStoreC ∧
    exStoreC.support_tickets.active_tickets = -1 ∧
    (exStoreC.support_tickets.tickets.filter (fun t => t.status == "open")).length = 0 := by
  refine ⟨?_, by decide, by decide⟩
  unfold activeInv
  decide

/-- C1 amended: the invariant `active_tickets = count(status == open)` holds
in every state reachable by the four lifecycle operations from the initial
store, provided `resolve_ticket` is only invoked on tickets that are currently
open (the code decrements unconditionally, so re-resolving breaks it). -/
theorem active_invariant_of_reachable (s : Store) (h : ReachableResolveOpen s) :
    activeInv s := by
  induction h with
  | init =>
    unfold activeInv
    decide
  | create s now day uid un cat msg _ ih => exact activeInv_create now day uid un cat msg ih
  | respond s now tid rid resp adm _ ih => exact activeInv_respond now tid rid resp adm ih
  | resolve s now tid res aid _ hguard ih => exact activeInv_resolve now tid res aid hguard ih
  | update s now tid ns aid _ ih => exact activeInv_update now tid ns aid ih

/-- Witness for the amended C1: the guarded trace create-then-resolve reaches
`exStoreB` and the invariant holds there. -/
theorem active_invariant_of_reachable_witness : activeInv exStoreB :=
  active_invariant_of_reachable exStoreB
    (ReachableResolveOpen.resolve exStoreA 1 1 "refunded" 7
      (ReachableResolveOpen.create initialStore 0 0 42 "alice" "Payment Problems"
        "my btc payment failed" ReachableResolveOpen.init)
      (by decide))

/-! ## C3: resolved tickets carry a resolution -/

theorem mem_updateFirst {tid : Nat} {f : Ticket → Ticket} {l : List Ticket} {x : Ticket}
    (hx : x ∈ updateFirst tid f l) :
    x ∈ l ∨ ∃ u, u ∈ l ∧ x = f u := by
  induction l with
  | nil => simp [updateFirst] at hx
  | cons a l ih =>
    simp only [updateFirst] at hx
    cases ha : (a.id == tid) with
    | true =>
      rw [ha] at hx
      simp only [if_true] at hx
      rcases List.mem_cons.mp hx with h | h
      · exact Or.inr ⟨a, List.mem_cons_self a l, h⟩
      · exact Or.inl (List.mem_cons_of_mem a h)
    | false =>
      rw [ha] at hx
      simp only [Bool.false_eq_true, if_false] at hx
      rcases List.mem_cons.mp hx with h | h
      · exact Or.inl (h ▸ List.mem_cons_self a l)
      · rcases ih h with h' | ⟨u, hu, hxu⟩
        · exact Or.inl (List.mem_cons_of_mem a h')
        · exact Or.inr ⟨u, List.mem_cons_of_mem a hu, hxu⟩

theorem resolvedInv_create {s : Store} (now day : Nat) (uid : Int) (un cat msg : String)
    (h : resolvedInv s) :
    resolvedInv (create_support_ticket now day uid un cat msg s).1 := by
  intro t ht hres
  simp only [create_support_ticket, List.mem_append, List.mem_singleton] at ht
  rcases ht with ht | ht
  · exact h t ht hres
  · rw [ht] at hres
    simp at hres

theorem resolvedInv_respond {s : Store} (now tid : Nat) (rid : Int) (resp : String)
    (adm : Bool) (h : resolvedInv s) :
    resolvedInv (add_ticket_response now tid rid resp adm s).1 := by
  cases hg : get_ticket_by_id s tid with
  | none => simpa [add_ticket_response, hg] using h
  | some u0 =>
    intro t ht hres
    simp only [add_ticket_response, hg] at ht
    rcases mem_updateFirst ht with hmem | ⟨u, hu, htu⟩
    · exact h t hmem hres
    · rw [htu] at hres ⊢
      exact h u hu hres

theorem resolvedInv_resolve {s : Store} (now tid : Nat) (res : String) (aid : Int)
    (h : resolvedInv s) :
    resolvedInv (resolve_ticket now tid res aid s).1 := by
  cases hg : get_ticket_by_id s tid with
  | none => simpa [resolve_ticket, hg] using h
  | some u0 =>
    intro t ht hres
    simp only [resolve_ticket, hg] at ht
    rcases mem_updateFirst ht with hmem | ⟨u, hu, htu⟩
    · exact h t hmem hres
    · rw [htu]
      simp

theorem resolvedInv_update {s : Store} (now tid : Nat) (ns : String) (aid : Int)
    (hns : ns ≠ "resolved") (h : resolvedInv s) :
    resolvedInv (update_ticket_status now tid ns aid s).1 := by
  cases hg : get_ticket_by_id s tid with
  | none => simpa [update_ticket_status, hg] using h
  | some u0 =>
    intro t ht hres
    simp only [update_ticket_status, hg] at ht
    rcases mem_updateFirst ht with hmem | ⟨u, hu, htu⟩
    · exact h t hmem hres
    · rw [htu] at hres
      exact absurd hres hns

/-- C3 counterexample: `update_ticket_status` with `new_status = 'resolved'`
produces a ticket whose status is resolved but whose resolution is still null,
so the claimed invariant fails after that lifecycle operation. -/
theorem resolved_resolution_counterexample :
    ¬ resolvedInv exStoreU ∧
    (get_ticket_by_id exStoreU 1).map (fun t => (t.status, t.resolution)) =
      some ("resolved", none) := by
  constructor
  · intro hinv
    have h1 : exTicketU ∈ exStoreU.support_tickets.tickets := by decide
    have h2 := hinv exTicketU h1 (by decide)
    exact h2 (by decide)
  · decide

/-- C3 amended: every ticket whose status is resolved has a non-null
resolution, in every state reachable by the lifecycle operations from the
initial store, provided `update_ticket_status` is never invoked with
`new_status = 'resolved'` (that operation sets the status without storing a
resolution; `resolve_ticket` is the only operation that both resolves and
records a resolution). -/
theorem resolved_has_resolution_of_reachable (s : Store) (h : ReachableNoStatusResolved s) :
    resolvedInv s := by
  induction h with
  | init => intro t ht
            simp [initialStore, initialTicketStore] at ht
  | create s now day uid un cat msg _ ih => exact resolvedInv_create now day uid un cat msg ih
  | respond s now tid rid resp adm _ ih => exact resolvedInv_respond now tid rid resp adm ih
  | resolve s now tid res aid _ ih => exact resolvedInv_resolve now tid res aid ih
  | update s now tid ns aid _ hns ih => exact resolvedInv_update now tid ns aid hns ih

/-- Witness for the amended C3: after create-then-resolve the only ticket is
resolved and carries its resolution. -/
theorem resolved_has_resolution_of_reachable_witness : resolvedInv exStoreB :=
  resolved_has_resolution_of_reachable exStoreB
    (ReachableNoStatusResolved.resolve exStoreA 1 1 "refunded" 7
      (ReachableNoStatusResolved.create initialStore 0 0 42 "alice" "Payment Problems"
        "my btc payment failed" ReachableNoStatusResolved.init))

/-! ## C7: the escalation monitor -/

theorem find?_eq_of_nodup {l : List Ticket} {t : Ticket}
    (hnd : (l.map (fun u => u.id)).Nodup) (ht : t ∈ l) :
    l.find? (fun u => u.id == t.id) = some t := by
  induction l with
  | nil => simp at ht
  | cons a l ih =>
    rw [List.map_cons, List.nodup_cons] at hnd
    obtain ⟨hna, hnd'⟩ := hnd
    rcases List.mem_cons.mp ht with rfl | hmem
    · simp [List.find?_cons]
    · have hne : a.id ≠ t.id := by
        intro he
        exact hna (he ▸ List.mem_map_of_mem (fun u => u.id) hmem)
      have hb : (a.id == t.id) = false := by simp [hne]
      simp only [List.find?_cons, hb]
      exact ih hnd' hmem

theorem get_escalate_self (now : Nat) (admins : List Int) {s : Store} {tid : Nat}
    {t : Ticket} (h : get_ticket_by_id s tid = some t) :
    get_ticket_by_id (escalate_ticket now admins tid s).1 tid = some (escTicket now t) := by
  simp only [escalate_ticket, h]
  exact find?_updateFirst_self (fun u => rfl) h

theorem escalate_notifs (now : Nat) (admins : List Int) {s : Store} {tid : Nat}
    {t : Ticket} (h : get_ticket_by_id s tid = some t) :
    (escalate_ticket now admins tid s).2 = admins.map (fun a => (a, tid)) := by
  simp only [escalate_ticket, h]

theorem get_escalate_ne (now : Nat) (admins : List Int) {tid' tid : Nat}
    (hne : tid' ≠ tid) (s : Store) :
    get_ticket_by_id (escalate_ticket now admins tid' s).1 tid = get_ticket_by_id s tid := by
  cases hg : get_ticket_by_id s tid' with
  | none => simp [escalate_ticket, hg]
  | some u =>
    simp only [escalate_ticket, hg]
    exact find?_updateFirst_ne (fun u => rfl) hne

theorem filter_pairs_self {tid : Nat} (admins : List Int) :
    (admins.map (fun a => (a, tid))).filter (fun p => p.2 == tid) =
      admins.map (fun a => (a, tid)) := by
  induction admins with
  | nil => rfl
  | cons a l ih =>
    have hb : (((a, tid) : Int × Nat).2 == tid) = true := by simp
    simp only [List.map_cons, List.filter_cons, hb, if_true, ih]

theorem filter_pairs_ne {tid' tid : Nat} (hne : tid' ≠ tid) (admins : List Int) :
    (admins.map (fun a => (a, tid'))).filter (fun p => p.2 == tid) = [] := by
  induction admins with
  | nil => rfl
  | cons a l ih =>
    have hb : (((a, tid') : Int × Nat).2 == tid) = false := by simp [hne]
    simp only [List.map_cons, List.filter_cons, hb, Bool.false_eq_true, if_false, ih]

theorem escalate_notifs_ne (now : Nat) (admins : List Int) {tid' tid : Nat}
    (hne : tid' ≠ tid) (s : Store) :
    (escalate_ticket now admins tid' s).2.filter (fun p => p.2 == tid) = [] := by
  cases hg : get_ticket_by_id s tid' with
  | none => simp [escalate_ticket, hg]
  | some u =>
    simp only [escalate_ticket, hg]
    exact filter_pairs_ne hne admins

theorem monitorGo_frame (now : Nat) (admins : List Int) (tid : Nat) (ids : List Nat) :
    ∀ (s : Store) (notifs : List (Int × Nat)), tid ∉ ids →
    get_ticket_by_id (monitorGo now admins ids s notifs).1 tid = get_ticket_by_id s tid ∧
    (monitorGo now admins ids s notifs).2.filter (fun p => p.2 == tid) =
      notifs.filter (fun p => p.2 == tid) := by
  induction ids with
  | nil => exact fun s notifs _ => ⟨rfl, rfl⟩
  | cons a rest ih =>
    intro s notifs hmem
    have hna : a ≠ tid := fun he => hmem (he ▸ List.mem_cons_self a rest)
    have hrest : tid ∉ rest := fun hr => hmem (List.mem_cons_of_mem a hr)
    cases hg : get_ticket_by_id s a with
    | none =>
      simp only [monitorGo, hg]
      exact ih s notifs hrest
    | some u =>
      simp only [monitorGo, hg]
      by_cases h1 : u.created_at + 86400 < now
      · by_cases h2 : u.escalated = false
        · rw [if_pos h1, if_pos h2]
          obtain ⟨ih1, ih2⟩ := ih (escalate_ticket now admins a s).1
            (notifs ++ (escalate_ticket now admins a s).2) hrest
          refine ⟨?_, ?_⟩
          · rw [ih1, get_escalate_ne now admins hna s]
          · rw [ih2, List.filter_append, escalate_notifs_ne now admins hna s,
              List.append_nil]
        · rw [if_pos h1, if_neg h2]
          exact ih s notifs hrest
      · rw [if_neg h1]
        exact ih s notifs hrest

theorem monitorGo_escalated (now : Nat) (admins : List Int) (tid : Nat) (t1 : Ticket)
    (ids : List Nat) (hesc : t1.escalated = true) :
    ∀ (s : Store) (notifs : List (Int × Nat)), get_ticket_by_id s tid = some t1 →
    get_ticket_by_id (monitorGo now admins ids s notifs).1 tid = some t1 ∧
    (monitorGo now admins ids s notifs).2.filter (fun p => p.2 == tid) =
      notifs.filter (fun p => p.2 == tid) := by
  induction ids with
  | nil => exact fun s notifs hget => ⟨hget, rfl⟩
  | cons a rest ih =>
    intro s notifs hget
    by_cases hat : a = tid
    · subst hat
      simp only [monitorGo, hget]
      by_cases h1 : t1.created_at + 86400 < now
      · rw [if_pos h1, if_neg (by simp [hesc])]
        exact ih s notifs hget
      · rw [if_neg h1]
        exact ih s notifs hget
    · cases hg : get_ticket_by_id s a with
      | none =>
        simp only [monitorGo, hg]
        exact ih s notifs hget
      | some u =>
        simp only [monitorGo, hg]
        by_cases h1 : u.created_at + 86400 < now
        · by_cases h2 : u.escalated = false
          · rw [if_pos h1, if_pos h2]
            have hget' : get_ticket_by_id (escalate_ticket now admins a s).1 tid = some t1 := by
              rw [get_escalate_ne now admins hat s]
              exact hget
            obtain ⟨ih1, ih2⟩ := ih (escalate_ticket now admins a s).1
              (notifs ++ (escalate_ticket now admins a s).2) hget'
            refine ⟨ih1, ?_⟩
            rw [ih2, List.filter_append, escalate_notifs_ne now admins hat s,
              List.append_nil]
          · rw [if_pos h1, if_neg h2]
            exact ih s notifs hget
        · rw [if_neg h1]
          exact ih s notifs hget

theorem monitorGo_escalates (now : Nat) (admins : List Int) (tid : Nat) (t : Ticket)
    (ids : List Nat) (hage : t.created_at + 86400 < now) (hesc : t.escalated = false) :
    ∀ (s : Store) (notifs : List (Int × Nat)), ids.Nodup → tid ∈ ids →
    get_ticket_by_id s tid = some t →
    get_ticket_by_id (monitorGo now admins ids s notifs).1 tid = some (escTicket now t) ∧
    (monitorGo now admins ids s notifs).2.filter (fun p => p.2 == tid) =
      notifs.filter (fun p => p.2 == tid) ++ admins.map (fun a => (a, tid)) := by
  induction ids with
  | nil =>
    intro s notifs _ hmem _
    simp at hmem
  | cons a rest ih =>
    intro s notifs hnd hmem hget
    rw [List.nodup_cons] at hnd
    obtain ⟨hnr, hnd'⟩ := hnd
    by_cases hat : a = tid
    · subst hat
      simp only [monitorGo, hget]
      rw [if_pos hage, if_pos hesc]
      obtain ⟨f1, f2⟩ := monitorGo_frame now admins a rest
        (escalate_ticket now admins a s).1
        (notifs ++ (escalate_ticket now admins a s).2) hnr
      refine ⟨?_, ?_⟩
      · rw [f1]
        exact get_escalate_self now admins hget
      · rw [f2, List.filter_append, escalate_notifs now admins hget, filter_pairs_self]
    · have hmem' : tid ∈ rest := by
        rcases List.mem_cons.mp hmem with h | h
        · exact absurd h.symm hat
        · exact h
      cases hg : get_ticket_by_id s a with
      | none =>
        simp only [monitorGo, hg]
        exact ih s notifs hnd' hmem' hget
      | some u =>
        simp only [monitorGo, hg]
        by_cases h1 : u.created_at + 86400 < now
        · by_cases h2 : u.escalated = false
          · rw [if_pos h1, if_pos h2]
            have hget' : get_ticket_by_id (escalate_ticket now admins a s).1 tid = some t := by
              rw [get_escalate_ne now admins hat s]
              exact hget
            obtain ⟨ih1, ih2⟩ := ih (escalate_ticket now admins a s).1
              (notifs ++ (escalate_ticket now admins a s).2) hnd' hmem' hget'
            refine ⟨ih1, ?_⟩
            rw [ih2, List.filter_append, escalate_notifs_ne now admins hat s,
              List.append_nil]
          · rw [if_pos h1, if_neg h2]
            exact ih s notifs hnd' hmem' hget
        · rw [if_neg h1]
          exact ih s notifs hnd' hmem' hget

/-- C7: a ticket that is open, not yet escalated, and older than 24 hours is
escalated exactly once by a monitor pass — it ends up with priority high and
the escalated flag set, and the pass emits exactly one escalation alert per
configured admin for it — and a subsequent pass neither changes the ticket
again nor re-notifies: it emits no alert for that ticket. Ticket ids are
assumed unique in the store (which C6 establishes for created stores). -/
theorem monitor_escalates_exactly_once (s : Store) (t : Ticket) (now now2 : Nat)
    (admins : List Int)
    (hnd : (s.support_tickets.tickets.map (fun u => u.id)).Nodup)
    (ht : t ∈ s.support_tickets.tickets)
    (hopen : t.status = "open")
    (hesc : t.escalated = false)
    (hage : t.created_at + 86400 < now) :
    get_ticket_by_id (monitorPass now admins s).1 t.id = some (escTicket now t) ∧
    (monitorPass now admins s).2.filter (fun p => p.2 == t.id) =
      admins.map (fun a => (a, t.id)) ∧
    get_ticket_by_id (monitorPass now2 admins (monitorPass now admins s).1).1 t.id =
      some (escTicket now t) ∧
    (monitorPass now2 admins (monitorPass now admins s).1).2.filter
      (fun p => p.2 == t.id) = [] := by
  have hget : get_ticket_by_id s t.id = some t := find?_eq_of_nodup hnd ht
  have hmemf : t ∈ s.support_tickets.tickets.filter (fun u => u.status == "open") :=
    List.mem_filter.mpr ⟨ht, by simp [hopen]⟩
  have hmem : t.id ∈ (s.support_tickets.tickets.filter (fun u => u.status == "open")).map
      (fun u => u.id) := List.mem_map_of_mem (fun u => u.id) hmemf
  have hsub : ((s.support_tickets.tickets.filter (fun u => u.status == "open")).map
      (fun u => u.id)).Sublist (s.support_tickets.tickets.map (fun u => u.id)) :=
    List.Sublist.map (fun u => u.id) (List.filter_sublist s.support_tickets.tickets)
  have hndo := hnd.sublist hsub
  obtain ⟨p1, p2⟩ := monitorGo_escalates now admins t.id t
    ((s.support_tickets.tickets.filter (fun u => u.status == "open")).map (fun u => u.id))
    hage hesc s [] hndo hmem hget
  have hesc1 : (escTicket now t).escalated = true := rfl
  obtain ⟨q1, q2⟩ := monitorGo_escalated now2 admins t.id (escTicket now t)
    (((monitorPass now admins s).1.support_tickets.tickets.filter
      (fun u => u.status == "open")).map (fun u => u.id)) hesc1
    (monitorPass now admins s).1 [] p1
  exact ⟨p1, by simpa using p2, q1, by simpa using q2⟩

/-- Witness for C7: the aged one-ticket store, a pass at time 100000 with two
admins, and a second pass at time 200000. -/
theorem monitor_escalates_exactly_once_witness :
    get_ticket_by_id (monitorPass 100000 [7, 8] exStoreA).1 exTicketA.id =
      some (escTicket 100000 exTicketA) ∧
    (monitorPass 100000 [7, 8] exStoreA).2.filter (fun p => p.2 == exTicketA.id) =
      [7, 8].map (fun a => (a, exTicketA.id)) ∧
    get_ticket_by_id (monitorPass 200000 [7, 8] (monitorPass 100000 [7, 8] exStoreA).1).1
      exTicketA.id = some (escTicket 100000 exTicketA) ∧
    (monitorPass 200000 [7, 8] (monitorPass 100000 [7, 8] exStoreA).1).2.filter
      (fun p => p.2 == exTicketA.id) = [] :=
  monitor_escalates_exactly_once exStoreA exTicketA 100000 200000 [7, 8]
    (by decide) (by decide) (by decide) (by decide) (by decide)

end ShopBD
